import Mathlib

/-!
Shallow embedding of `src/plparse/totem-disc.c` (disc content detection).

The external GLib/GIO services the C code calls into (filesystem tests,
symlink reading, the volume monitor, content-type guessing, URI helpers)
are modelled as an explicit `World` record of oracle functions, mirroring
the spec's "Volume Service", "Content-Type Oracle" and "Path/URI utility"
collaborators.  Every function below is a line-by-line translation of the
corresponding C function; side effects that matter to the claims (mount
requests, unmount requests, cache constructions, classification checks)
are recorded in an explicit event list.  The unbounded symlink loop of
`totem_resolve_symlink` is given a fuel parameter; running out of fuel is
reported as `Halt.diverge`.  Reading `*error` through a NULL pointer is
reported as `Halt.nullDeref`.
-/

/-- A single quote character, used inside the C error message strings. -/
def quoteCh : String := String.mk [Char.ofNat 39]

/-- Message set by `cd_cache_new` when no volume matches the device. -/
def noMediaMsg (d : String) : String :=
  "No media in drive for device " ++ quoteCh ++ d ++ quoteCh

/-- Message set by `cd_cache_open_device` when the drive has no medium. -/
def noDiscMsg : String := "Please check that a disc is present in the drive."

/-- Message synthesized when a mount attempt fails without its own error. -/
def failMountMsg (d : String) : String := "Failed to mount " ++ d

/-- `g_str_has_prefix`, on the underlying character lists. -/
def strHasPre (p s : String) : Bool := p.data.isPrefixOf s.data

/-- Dropping the first `n` characters of a string (`dev + 5` in C). -/
def strDrop (s : String) (n : Nat) : String := String.mk (s.data.drop n)

/-- `TotemDiscMediaType` from totem-disc.h. -/
inductive MediaType where
  | error
  | data
  | cdda
  | vcd
  | dvd
  | dvb
deriving DecidableEq, Repr

/-- The content-type tag checked by `cd_cache_disc_is_cdda`. -/
def cddaTag : String := "x-content/audio-cdda"

/-- The first content-type tag checked by `cd_cache_disc_is_vcd`. -/
def vcdTag : String := "x-content/video-vcd"

/-- The second content-type tag checked by `cd_cache_disc_is_vcd`. -/
def svcdTag : String := "x-content/video-svcd"

/-- The content-type tag checked by `cd_cache_disc_is_dvd`. -/
def dvdTag : String := "x-content/video-dvd"

/-- The caller's `GError **error` argument: `none` models a NULL pointer,
`some e` a supplied slot currently holding `e` (`none` = no error yet). -/
abbrev ErrSlot := Option (Option String)

/-- `g_set_error` / `g_propagate_error`: a NULL slot ignores the message,
a supplied slot records the message only if it holds no error yet. -/
def gSetError (slot : ErrSlot) (m : String) : ErrSlot :=
  slot.map (fun cur => some (cur.getD m))

/-- Observable side effects of a run, in program order. -/
inductive Event where
  | bindReq (arg : String)
  | checkCdda
  | checkVcd
  | checkDvd
  | volMountReq
  | archMountReq
  | unmountReq
deriving DecidableEq, Repr

/-- Outcome of `g_file_find_enclosing_mount` on the ISO archive file,
together with the result of the asynchronous archive mount that the
`G_IO_ERROR_NOT_MOUNTED` branch performs (`ok` is the callback's result,
`err` its error, if any). -/
inductive IsoLookup where
  | mounted
  | notMounted (ok : Bool) (err : Option String)
  | otherError
deriving DecidableEq, Repr

/-- One `GVolume` of the volume monitor, with the drive and mount state
the C code observes through GIO, and the outcome of an asynchronous
`g_volume_mount` should one be issued. -/
structure Volume where
  ident : Option String
  mount : Option String
  hasMedia : Bool
  mountOk : Bool
  mountErr : Option String
  contentTypes : Option (List String)
  newMountRoot : String
deriving DecidableEq, Repr

/-- The external world: filesystem tests, symlink data, the volume
registry, content-type oracles and URI helpers, all read-only. -/
structure World where
  isSymlink : String → Bool
  readLink : String → Option String
  readLinkErr : String → String
  dirname : String → String
  buildFilename : String → String → String
  canonPath : String → String
  isDir : String → Bool
  isRegular : String → Bool
  argPath : String → Option String
  dirContentTypes : String → Option (List String)
  volumes : List Volume
  isoLookup : String → IsoLookup
  isoPath : String → Option String
  parentPath : String → Option String
  filenameFromUri : String → Option String

/-- Abnormal outcomes of a run: `diverge` models the unbounded symlink
loop exceeding the provided fuel, `nullDeref` models reading `*error`
through a NULL `error` pointer. -/
inductive Halt where
  | diverge
  | nullDeref
deriving DecidableEq, Repr

/-- The `CdCache` struct (zero-initialised by `g_new0`). -/
structure CdCache where
  device : Option String := none
  mountpoint : Option String := none
  volume : Option Volume := none
  content_types : Option (List String) := none
  iso_file : Option String := none
  has_medium : Bool := false
  is_media : Bool := false
  self_mounted : Bool := false
  mounted : Bool := false
  is_iso : Bool := false
deriving DecidableEq, Repr

/-- `cd_cache_has_content_type`: scan the NULL-terminated tag array. -/
def ctHas : Option (List String) → String → Bool
  | none, _ => false
  | some l, t => l.any (fun s => s = t)

/-- `totem_resolve_symlink`, fuel-bounded: the C loop keeps following
symlinks with no bound, so `none` means the loop is still running after
`fuel` iterations; `some (.error m)` is the C NULL return with `*error`
set from `g_file_read_link`; `some (.ok p)` is the canonicalised result. -/
def resolveSymlinkFuel (w : World) : String → Nat → Option (Except String String)
  | _, 0 => none
  | f, n+1 =>
    if w.isSymlink f then
      match w.readLink f with
      | none => some (.error (w.readLinkErr f))
      | some link => resolveSymlinkFuel w (w.buildFilename (w.dirname f) link) n
    else
      some (.ok (w.canonPath f))

/-- `cd_cache_get_dev_from_volumes`: walk the volume list, resolve each
volume's unix-device identifier through `totem_resolve_symlink` (with a
NULL error), and return the first volume whose resolved identifier equals
`device`, together with its current mount root (if mounted).  `none`
models divergence of the inner symlink resolution. -/
def cdCacheGetDevFromVolumes (w : World) (fuel : Nat) (device : String) :
    List Volume → Option (Option (Volume × Option String))
  | [] => some none
  | v :: rest =>
    match v.ident with
    | none => cdCacheGetDevFromVolumes w fuel device rest
    | some pdev =>
      match resolveSymlinkFuel w pdev fuel with
      | none => none
      | some (.error _) => cdCacheGetDevFromVolumes w fuel device rest
      | some (.ok pdev2) =>
        if pdev2 = device then some (some (v, v.mount))
        else cdCacheGetDevFromVolumes w fuel device rest

/-- Whether `g_file_find_enclosing_mount` would currently find a mount
for the cache's ISO archive file (consulted by `cd_cache_free`): true if
the original lookup found one, or the lookup said not-mounted and this
cache's own archive mount succeeded (`cache.mounted`). -/
def isoMountedNow (w : World) (c : CdCache) : Bool :=
  match c.iso_file with
  | none => false
  | some l =>
    match w.isoLookup l with
    | .mounted => true
    | .notMounted _ _ => c.mounted
    | .otherError => false

/-- `cd_cache_free`: frees the owned strings and handles, and issues an
unmount request only when the cache holds an ISO archive file whose
enclosing mount is found; device-volume mounts are never unmounted here. -/
def cdCacheFree (w : World) (c : CdCache) : List Event :=
  if c.iso_file.isSome then
    if isoMountedNow w c then [Event.unmountReq] else []
  else []

/-- The `local` computation at the top of `cd_cache_new`: an absolute
path is used as is, anything else goes through
`g_file_new_for_commandline_arg` / `g_file_get_path`. -/
def localOf (w : World) (dev : String) : Option String :=
  if strHasPre "/" dev then some dev else w.argPath dev

/-- `cd_cache_new`: bind the argument to a directory, ISO-archive or
device resource, exactly following the C control flow.  Returns the
cache (or `none` for the NULL-returning failure paths), the error slot,
and the emitted events.  The ISO archive file is keyed by its local path. -/
def cdCacheNew (w : World) (fuel : Nat) (dev : String) (slot : ErrSlot) :
    Except Halt (Option CdCache × ErrSlot × List Event) :=
  match localOf w dev with
  | none => .ok (none, slot, [Event.bindReq dev])
  | some l =>
    if w.isDir l then
      .ok (some { mountpoint := some l, is_media := false,
                  content_types := w.dirContentTypes l },
           slot, [Event.bindReq dev])
    else if w.isRegular l then
      let base : CdCache :=
        { is_iso := true, is_media := false, device := some l, iso_file := some l }
      match w.isoLookup l with
      | .mounted =>
        .ok (some { base with mountpoint := w.isoPath l, mounted := true },
             slot, [Event.bindReq dev])
      | .notMounted ok me =>
        if ok then
          .ok (some { base with mountpoint := w.isoPath l, mounted := true },
               slot, [Event.bindReq dev, Event.archMountReq])
        else
          .ok (none, gSetError slot (me.getD (failMountMsg l)),
               [Event.bindReq dev, Event.archMountReq] ++ cdCacheFree w base)
      | .otherError =>
        .ok (none, slot, [Event.bindReq dev] ++ cdCacheFree w base)
    else
      match resolveSymlinkFuel w l fuel with
      | none => .error .diverge
      | some (.error m) => .ok (none, gSetError slot m, [Event.bindReq dev])
      | some (.ok device) =>
        match cdCacheGetDevFromVolumes w fuel device w.volumes with
        | none => .error .diverge
        | some none =>
          .ok (none, gSetError slot (noMediaMsg device), [Event.bindReq dev])
        | some (some (v, mp)) =>
          .ok (some { device := some device, mountpoint := mp,
                      self_mounted := false, volume := some v, is_media := true,
                      content_types :=
                        if v.mount.isSome then v.contentTypes else none },
               slot, [Event.bindReq dev])

/-- `cd_cache_has_medium`: drive-level physical-medium flag. -/
def cdCacheHasMedium (c : CdCache) : Bool :=
  match c.volume with
  | none => false
  | some v => v.hasMedia

/-- `cd_cache_open_device`: the lazily cached medium check. -/
def cdCacheOpenDevice (c : CdCache) (slot : ErrSlot) : Bool × CdCache × ErrSlot :=
  if c.is_media = false || c.has_medium then (true, c, slot)
  else if cdCacheHasMedium c = false then
    (false, c, gSetError slot noDiscMsg)
  else (true, { c with has_medium := true }, slot)

/-- `cd_cache_open_mountpoint`: note that `self_mounted` is assigned
before the mount attempt, and `mounted` only after a successful one. -/
def cdCacheOpenMountpoint (c : CdCache) (slot : ErrSlot) :
    Bool × CdCache × ErrSlot × List Event :=
  if c.mounted || c.is_media = false then (true, c, slot, [])
  else
    match c.volume with
    | none => (true, c, slot, [])
    | some v =>
      let c := { c with self_mounted := v.mount.isNone }
      if v.mount.isNone then
        if v.mountOk then
          let c := { c with mounted := true }
          let c := if c.mountpoint.isNone then { c with mountpoint := some v.newMountRoot } else c
          (true, c, slot, [Event.volMountReq])
        else
          (false, c,
           gSetError slot (v.mountErr.getD (failMountMsg (c.device.getD "(null)"))),
           [Event.volMountReq])
      else
        let c := if c.mountpoint.isNone then { c with mountpoint := v.mount } else c
        (true, c, slot, [])

/-- `cd_cache_disc_is_cdda`. -/
def cdCacheDiscIsCdda (c : CdCache) (slot : ErrSlot) :
    MediaType × CdCache × ErrSlot × List Event :=
  if c.is_media = false then (.data, c, slot, [Event.checkCdda])
  else
    let r := cdCacheOpenDevice c slot
    if r.1 = false then (.error, r.2.1, r.2.2, [Event.checkCdda])
    else if ctHas r.2.1.content_types cddaTag then (.cdda, r.2.1, r.2.2, [Event.checkCdda])
    else (.data, r.2.1, r.2.2, [Event.checkCdda])

/-- `cd_cache_disc_is_vcd`: both the video-vcd and video-svcd tags map
to `MEDIA_TYPE_VCD`. -/
def cdCacheDiscIsVcd (c : CdCache) (slot : ErrSlot) :
    MediaType × CdCache × ErrSlot × List Event :=
  let r := cdCacheOpenDevice c slot
  if r.1 = false then (.error, r.2.1, r.2.2, [Event.checkVcd])
  else
    let m := cdCacheOpenMountpoint r.2.1 r.2.2
    if m.1 = false then (.error, m.2.1, m.2.2.1, Event.checkVcd :: m.2.2.2)
    else if m.2.1.mountpoint.isNone then (.error, m.2.1, m.2.2.1, Event.checkVcd :: m.2.2.2)
    else if ctHas m.2.1.content_types vcdTag then (.vcd, m.2.1, m.2.2.1, Event.checkVcd :: m.2.2.2)
    else if ctHas m.2.1.content_types svcdTag then (.vcd, m.2.1, m.2.2.1, Event.checkVcd :: m.2.2.2)
    else (.data, m.2.1, m.2.2.1, Event.checkVcd :: m.2.2.2)

/-- `cd_cache_disc_is_dvd`. -/
def cdCacheDiscIsDvd (c : CdCache) (slot : ErrSlot) :
    MediaType × CdCache × ErrSlot × List Event :=
  let r := cdCacheOpenDevice c slot
  if r.1 = false then (.error, r.2.1, r.2.2, [Event.checkDvd])
  else
    let m := cdCacheOpenMountpoint r.2.1 r.2.2
    if m.1 = false then (.error, m.2.1, m.2.2.1, Event.checkDvd :: m.2.2.2)
    else if m.2.1.mountpoint.isNone then (.error, m.2.1, m.2.2.1, Event.checkDvd :: m.2.2.2)
    else if ctHas m.2.1.content_types dvdTag then (.dvd, m.2.1, m.2.2.1, Event.checkDvd :: m.2.2.2)
    else (.data, m.2.1, m.2.2.1, Event.checkDvd :: m.2.2.2)

/-- The `(type = is_vcd (...)) == MEDIA_TYPE_DATA && (type = is_dvd (...))`
pattern used by both `totem_cd_detect_type_from_dir` and
`totem_cd_detect_type_with_url`: the DVD check runs only when the VCD
check returned `MEDIA_TYPE_DATA`, and the final type is the last one
assigned. -/
def classifyVcdDvd (c : CdCache) (slot : ErrSlot) :
    MediaType × CdCache × ErrSlot × List Event :=
  let v := cdCacheDiscIsVcd c slot
  if v.1 = .data then
    let d := cdCacheDiscIsDvd v.2.1 v.2.2.1
    (d.1, d.2.1, d.2.2.1, v.2.2.2 ++ d.2.2.2)
  else v

/-- `totem_cd_mrl_from_type`: a `file://` location is converted to a
local path (by the URI utility oracle) before prefixing the scheme. -/
def totemCdMrlFromType (w : World) (scheme dir : String) : String :=
  if strHasPre "file://" dir then
    scheme ++ "://" ++ ((w.filenameFromUri dir).getD "(null)")
  else scheme ++ "://" ++ dir

/-- Result of `totem_cd_detect_type_with_url`: the returned media type,
the value left in `*url` (`none` = NULL or not asked for), the error
slot, and the emitted events. -/
structure DetectResult where
  kind : MediaType
  url : Option String
  err : ErrSlot
  events : List Event
deriving DecidableEq, Repr

/-- The tail of `totem_cd_detect_type_with_url` after classification:
locator synthesis per classified kind, then `cd_cache_free`. -/
def withUrlFinish (w : World) (device : String) (wantUrl : Bool) (t : MediaType)
    (c : CdCache) (slot : ErrSlot) (ev : List Event) : DetectResult :=
  if wantUrl = false then ⟨t, none, slot, ev ++ cdCacheFree w c⟩
  else
    match t with
    | .dvd =>
      let str := if c.is_iso = false then c.mountpoint.getD device else c.device.getD "(null)"
      ⟨t, some (totemCdMrlFromType w "dvd" str), slot, ev ++ cdCacheFree w c⟩
    | .vcd =>
      let str := if c.is_iso = false then c.mountpoint.getD device else c.device.getD "(null)"
      ⟨t, some (totemCdMrlFromType w "vcd" str), slot, ev ++ cdCacheFree w c⟩
    | .cdda =>
      let dev := c.device.getD device
      if strHasPre "/dev/" dev then
        ⟨t, some (totemCdMrlFromType w "cdda" (strDrop dev 5)), slot, ev ++ cdCacheFree w c⟩
      else
        ⟨t, some (totemCdMrlFromType w "cdda" dev), slot, ev ++ cdCacheFree w c⟩
    | .data =>
      if c.is_iso then ⟨.error, none, slot, ev ++ cdCacheFree w c⟩
      else ⟨t, c.mountpoint, slot, ev ++ cdCacheFree w c⟩
    | t => ⟨t, none, slot, ev ++ cdCacheFree w c⟩

/-- `totem_cd_detect_type_with_url`.  `wantUrl` models whether the caller
passed a non-NULL `url` out-parameter.  After the CDDA stage the C code
evaluates `type == MEDIA_TYPE_ERROR && *error != NULL`, dereferencing
`error` whenever the stage returned `MEDIA_TYPE_ERROR`; with a NULL
`error` that read is `Halt.nullDeref`. -/
def totemCdDetectTypeWithUrl (w : World) (fuel : Nat) (device : String)
    (wantUrl : Bool) (slot : ErrSlot) : Except Halt DetectResult :=
  match cdCacheNew w fuel device slot with
  | .error h => .error h
  | .ok (none, slot, ev) => .ok ⟨.error, none, slot, ev⟩
  | .ok (some cache, slot, ev) =>
    let s := cdCacheDiscIsCdda cache slot
    let t := s.1
    let cache := s.2.1
    let slot := s.2.2.1
    let ev := ev ++ s.2.2.2
    if t = .error then
      match slot with
      | none => .error .nullDeref
      | some e =>
        if e.isSome then .ok ⟨t, none, some e, ev ++ cdCacheFree w cache⟩
        else
          let r := classifyVcdDvd cache (some e)
          .ok (withUrlFinish w device wantUrl r.1 r.2.1 r.2.2.1 (ev ++ r.2.2.2))
    else
      if t = .data then
        let r := classifyVcdDvd cache slot
        .ok (withUrlFinish w device wantUrl r.1 r.2.1 r.2.2.1 (ev ++ r.2.2.2))
      else
        .ok (withUrlFinish w device wantUrl t cache slot ev)

/-- `totem_cd_detect_type`: same as `totem_cd_detect_type_with_url` with
a NULL `url` out-parameter. -/
def totemCdDetectType (w : World) (fuel : Nat) (device : String) (slot : ErrSlot) :
    Except Halt DetectResult :=
  totemCdDetectTypeWithUrl w fuel device false slot

/-- `totem_cd_has_medium`: passes a NULL error, and treats a failed bind
as "medium present" (fail-open). -/
def totemCdHasMedium (w : World) (fuel : Nat) (device : String) : Except Halt Bool :=
  match cdCacheNew w fuel device none with
  | .error h => .error h
  | .ok (none, _, _) => .ok true
  | .ok (some c, _, _) => .ok (cdCacheHasMedium c)

/-- The tail of `totem_cd_detect_type_from_dir`: locator synthesis for
the DVD/VCD outcomes, then `cd_cache_free`. -/
def fromDirFinish (w : World) (t : MediaType) (c : CdCache) (wantUrl : Bool)
    (slot : ErrSlot) (ev : List Event) : MediaType × Option String × ErrSlot × List Event :=
  if wantUrl = false then (t, none, slot, ev ++ cdCacheFree w c)
  else if t = .dvd then
    (t, some (totemCdMrlFromType w "dvd" (c.mountpoint.getD "(null)")), slot,
     ev ++ cdCacheFree w c)
  else if t = .vcd then
    (t, some (totemCdMrlFromType w "vcd" (c.mountpoint.getD "(null)")), slot,
     ev ++ cdCacheFree w c)
  else (t, none, slot, ev ++ cdCacheFree w c)

/-- `totem_cd_detect_type_from_dir`: VCD/DVD classification of a
directory path with exactly one retry against the parent directory. -/
def totemCdDetectTypeFromDir (w : World) (fuel : Nat) (dir : String)
    (wantUrl : Bool) (slot : ErrSlot) :
    Except Halt (MediaType × Option String × ErrSlot × List Event) :=
  match cdCacheNew w fuel dir slot with
  | .error h => .error h
  | .ok (none, slot, ev) => .ok (.error, none, slot, ev)
  | .ok (some cache, slot, ev) =>
    let r := classifyVcdDvd cache slot
    let t := r.1
    let cache := r.2.1
    let slot := r.2.2.1
    let ev := ev ++ r.2.2.2
    if t = .data then
      let ev := ev ++ cdCacheFree w cache
      match w.parentPath dir with
      | none => .ok (t, none, slot, ev)
      | some parent =>
        match cdCacheNew w fuel parent slot with
        | .error h => .error h
        | .ok (none, slot, ev2) => .ok (.error, none, slot, ev ++ ev2)
        | .ok (some cache2, slot, ev2) =>
          let r2 := classifyVcdDvd cache2 slot
          let t2 := r2.1
          let cache2 := r2.2.1
          let slot := r2.2.2.1
          let ev := ev ++ ev2 ++ r2.2.2.2
          if t2 = .data then
            .ok (t2, none, slot, ev ++ cdCacheFree w cache2)
          else
            .ok (fromDirFinish w t2 cache2 wantUrl slot ev)
    else
      .ok (fromDirFinish w t cache wantUrl slot ev)

deriving instance DecidableEq for Except

/-- Whether an event is one of the three classification checks. -/
def isCheckEvent : Event → Bool
  | .checkCdda => true
  | .checkVcd => true
  | .checkDvd => true
  | _ => false

/-- The classification checks of an event trace, in order. -/
def checkEvents (es : List Event) : List Event := es.filter isCheckEvent

/-- Whether an event is a mount request (volume or archive). -/
def isMountEvent : Event → Bool
  | .volMountReq => true
  | .archMountReq => true
  | _ => false

/-- The invariant claimed by the spec for every Disc Resource:
`self_mounted` implies `mounted`. -/
def selfMountedInv (c : CdCache) : Prop :=
  c.self_mounted = true → c.mounted = true

/-- One iteration of the `totem_resolve_symlink` while-loop, total: a
non-symlink, or a symlink whose target cannot be read, stays put. -/
def resolveNext (w : World) (f : String) : String :=
  if w.isSymlink f then
    match w.readLink f with
    | some link => w.buildFilename (w.dirname f) link
    | none => f
  else f

/-- The symlink chain after `n` loop iterations. -/
def followN (w : World) (f : String) : Nat → String
  | 0 => f
  | n+1 => followN w (resolveNext w f) n

/-- The condition under which the `totem_resolve_symlink` loop stops at
`f`: not a symlink, or an unreadable link (error return). -/
def resolveExit (w : World) (f : String) : Prop :=
  w.isSymlink f = false ∨ w.readLink f = none

/-- `totem_resolve_symlink` never returns on input `f`: every fuel bound
is exhausted with the loop still running. -/
def resolveDiverges (w : World) (f : String) : Prop :=
  ∀ n, resolveSymlinkFuel w f n = none

/-- A base world in which nothing exists: no symlinks, no directories,
no regular files, no volumes.  Concrete worlds below override fields. -/
def w0 : World :=
  { isSymlink := fun _ => false, readLink := fun _ => none,
    readLinkErr := fun _ => "read error", dirname := fun _ => "/",
    buildFilename := fun a b => a ++ b, canonPath := fun s => s,
    isDir := fun _ => false, isRegular := fun _ => false,
    argPath := fun _ => none, dirContentTypes := fun _ => none,
    volumes := [], isoLookup := fun _ => .otherError,
    isoPath := fun _ => none, parentPath := fun _ => none,
    filenameFromUri := fun _ => none }

/-- An unmounted volume for device `/dev/sr0` whose drive has a medium
and whose mount attempt succeeds. -/
def volUnmounted : Volume :=
  { ident := some "/dev/sr0", mount := none, hasMedia := true, mountOk := true,
    mountErr := none, contentTypes := some [], newMountRoot := "/media/disc" }

/-- World for the device self-mount scenario: binding `/dev/sr0` finds
`volUnmounted`, classification mounts it and finds no tags. -/
def wSelfMount : World := { w0 with volumes := [volUnmounted] }

/-- A mounted audio-CD volume for `/dev/sr0`. -/
def volCdda : Volume :=
  { ident := some "/dev/sr0", mount := some "/media/cdrom", hasMedia := true,
    mountOk := true, mountErr := none,
    contentTypes := some ["x-content/audio-cdda"], newMountRoot := "/media/disc" }

/-- World in which `/dev/sr0` is a mounted audio CD. -/
def wCdda : World := { w0 with volumes := [volCdda] }

/-- A mounted audio-CD volume whose device node is `/tmp/loop0`, i.e.
outside `/dev/`. -/
def volCddaLoop : Volume := { volCdda with ident := some "/tmp/loop0" }

/-- World in which `/tmp/loop0` is a mounted audio CD. -/
def wCddaLoop : World := { w0 with volumes := [volCddaLoop] }

/-- A mounted volume for `/dev/sr0` whose drive reports no medium. -/
def volNoMedium : Volume := { volCdda with hasMedia := false }

/-- World in which the medium check for `/dev/sr0` fails hard. -/
def wNoMedium : World := { w0 with volumes := [volNoMedium] }

/-- An unmounted volume for `/dev/sr0` whose mount attempt fails. -/
def volMountFails : Volume :=
  { volUnmounted with mountOk := false, mountErr := some "mount failed" }

/-- The Device cache that `cd_cache_new` builds for `/dev/sr0` when the
matching volume is `volMountFails` (unmounted, no content types). -/
def cacheMountFails : CdCache :=
  { device := some "/dev/sr0", mountpoint := none, volume := some volMountFails,
    content_types := none, is_media := true }

/-- World with a cyclic symlink: `/a` is a symlink to `a`, which resolves
back to `/a`. -/
def wCycle : World := { w0 with
  isSymlink := fun s => s == "/a",
  readLink := fun s => if s == "/a" then some "a" else none }

/-- World in which `/home/u/img.iso` is a regular file whose archive
mount is not yet mounted and mounts successfully. -/
def wIso : World := { w0 with
  isRegular := fun s => s == "/home/u/img.iso",
  isoLookup := fun _ => .notMounted true none,
  isoPath := fun _ => some "/run/archive/root" }

/-- World in which `/mnt/disc` and `/mnt` are directories with no
VCD/DVD content-type tags, and `/mnt` is the parent of `/mnt/disc`. -/
def wDirPlain : World := { w0 with
  isDir := fun s => s == "/mnt/disc" || s == "/mnt",
  dirContentTypes := fun _ => some ["text/plain"],
  parentPath := fun s => if s == "/mnt/disc" then some "/mnt" else none }

/-- World with an unmounted volume for `/dev/sr0` whose mount attempt
fails: binding it yields `cacheMountFails`. -/
def wMountFails : World := { w0 with volumes := [volMountFails] }

/-- World whose URI utility converts `file:///media/movie` to a local
path, for exercising `totem_cd_mrl_from_type`. -/
def wUri : World := { w0 with
  filenameFromUri := fun u => if u == "file:///media/movie" then some "/media/movie" else none }

theorem checkEvents_append (a b : List Event) :
    checkEvents (a ++ b) = checkEvents a ++ checkEvents b := by
  simp [checkEvents]

theorem cdCacheFree_cases (w : World) (c : CdCache) :
    cdCacheFree w c = [] ∨ cdCacheFree w c = [Event.unmountReq] := by
  unfold cdCacheFree
  split_ifs <;> simp

theorem checkEvents_free (w : World) (c : CdCache) :
    checkEvents (cdCacheFree w c) = [] := by
  rcases cdCacheFree_cases w c with h | h <;> simp [h, checkEvents, isCheckEvent]

theorem openDevice_cases (c : CdCache) (slot : ErrSlot) :
    cdCacheOpenDevice c slot = (true, c, slot) ∨
    cdCacheOpenDevice c slot = (false, c, gSetError slot noDiscMsg) ∨
    cdCacheOpenDevice c slot = (true, { c with has_medium := true }, slot) := by
  unfold cdCacheOpenDevice
  split_ifs <;> simp

theorem openMountpoint_events (c : CdCache) (slot : ErrSlot) :
    (cdCacheOpenMountpoint c slot).2.2.2 = [] ∨
    (cdCacheOpenMountpoint c slot).2.2.2 = [Event.volMountReq] := by
  unfold cdCacheOpenMountpoint
  repeat' split
  all_goals simp

theorem cdda_events (c : CdCache) (slot : ErrSlot) :
    (cdCacheDiscIsCdda c slot).2.2.2 = [Event.checkCdda] := by
  unfold cdCacheDiscIsCdda
  split
  · rfl
  · dsimp only
    split
    · rfl
    · split <;> rfl

theorem vcd_events (c : CdCache) (slot : ErrSlot) :
    checkEvents (cdCacheDiscIsVcd c slot).2.2.2 = [Event.checkVcd] := by
  unfold cdCacheDiscIsVcd
  dsimp only
  have hm := openMountpoint_events (cdCacheOpenDevice c slot).2.1 (cdCacheOpenDevice c slot).2.2
  repeat' split
  all_goals rcases hm with h | h <;>
    simp [h, checkEvents, isCheckEvent]

theorem dvd_events (c : CdCache) (slot : ErrSlot) :
    checkEvents (cdCacheDiscIsDvd c slot).2.2.2 = [Event.checkDvd] := by
  unfold cdCacheDiscIsDvd
  dsimp only
  have hm := openMountpoint_events (cdCacheOpenDevice c slot).2.1 (cdCacheOpenDevice c slot).2.2
  repeat' split
  all_goals rcases hm with h | h <;>
    simp [h, checkEvents, isCheckEvent]

theorem classify_checks (c : CdCache) (slot : ErrSlot) :
    checkEvents (classifyVcdDvd c slot).2.2.2 = [Event.checkVcd] ∨
    checkEvents (classifyVcdDvd c slot).2.2.2 = [Event.checkVcd, Event.checkDvd] := by
  unfold classifyVcdDvd
  dsimp only
  split
  · right
    rw [checkEvents_append, vcd_events, dvd_events]
    rfl
  · left
    exact vcd_events c slot

theorem cdCacheNew_checks (w : World) (fuel : Nat) (dev : String) (slot : ErrSlot)
    (oc : Option CdCache) (s : ErrSlot) (ev : List Event)
    (h : cdCacheNew w fuel dev slot = .ok (oc, s, ev)) : checkEvents ev = [] := by
  unfold cdCacheNew at h
  repeat' split at h
  all_goals first
  | (simp only [Except.ok.injEq, Prod.mk.injEq] at h
     obtain ⟨rfl, rfl, rfl⟩ := h
     try simp only [checkEvents_append, checkEvents_free, List.append_nil]
     rfl)
  | cases h

theorem withUrlFinish_events (w : World) (device : String) (wantUrl : Bool)
    (t : MediaType) (c : CdCache) (slot : ErrSlot) (ev : List Event) :
    (withUrlFinish w device wantUrl t c slot ev).events = ev ++ cdCacheFree w c := by
  unfold withUrlFinish
  repeat' split
  all_goals dsimp only
  all_goals repeat' split
  all_goals rfl

theorem withUrl_checks (w : World) (fuel : Nat) (dev : String) (wu : Bool) (slot : ErrSlot)
    (r : DetectResult) (h : totemCdDetectTypeWithUrl w fuel dev wu slot = .ok r) :
    ∃ n, checkEvents r.events = [Event.checkCdda, Event.checkVcd, Event.checkDvd].take n := by
  unfold totemCdDetectTypeWithUrl at h
  cases hnew : cdCacheNew w fuel dev slot with
  | error e => rw [hnew] at h; cases h
  | ok trip =>
    obtain ⟨oc, s, ev⟩ := trip
    have hev := cdCacheNew_checks w fuel dev slot oc s ev hnew
    rw [hnew] at h
    cases oc with
    | none =>
      obtain rfl := (Except.ok.inj h)
      exact ⟨0, by simp [hev]⟩
    | some c =>
      dsimp only at h
      rcases hcd : cdCacheDiscIsCdda c s with ⟨t, c1, s1, ev2⟩
      have hev2 : ev2 = [Event.checkCdda] := by
        have h2 := cdda_events c s
        rw [hcd] at h2
        exact h2
      rw [hcd] at h
      dsimp only at h
      subst hev2
      by_cases ht : t = .error
      · rw [if_pos ht] at h
        cases hs1 : s1 with
        | none => rw [hs1] at h; cases h
        | some e =>
          rw [hs1] at h
          dsimp only at h
          by_cases he : e.isSome
          · rw [if_pos he] at h
            obtain rfl := (Except.ok.inj h)
            refine ⟨1, ?_⟩
            simp only [checkEvents_append, hev, checkEvents_free]
            rfl
          · rw [if_neg he] at h
            obtain rfl := (Except.ok.inj h)
            rcases classify_checks c1 (some e) with hcl | hcl
            · refine ⟨2, ?_⟩
              simp only [withUrlFinish_events, checkEvents_append, hev, hcl, checkEvents_free]
              rfl
            · refine ⟨3, ?_⟩
              simp only [withUrlFinish_events, checkEvents_append, hev, hcl, checkEvents_free]
              rfl
      · rw [if_neg ht] at h
        by_cases hd : t = .data
        · rw [if_pos hd] at h
          obtain rfl := (Except.ok.inj h)
          rcases classify_checks c1 s1 with hcl | hcl
          · refine ⟨2, ?_⟩
            simp only [withUrlFinish_events, checkEvents_append, hev, hcl, checkEvents_free]
            rfl
          · refine ⟨3, ?_⟩
            simp only [withUrlFinish_events, checkEvents_append, hev, hcl, checkEvents_free]
            rfl
        · rw [if_neg hd] at h
          obtain rfl := (Except.ok.inj h)
          refine ⟨1, ?_⟩
          simp only [withUrlFinish_events, checkEvents_append, hev, checkEvents_free]
          rfl

theorem withUrlFinish_err (w : World) (device : String) (wantUrl : Bool)
    (t : MediaType) (c : CdCache) (slot : ErrSlot) (ev : List Event) :
    (withUrlFinish w device wantUrl t c slot ev).err = slot := by
  unfold withUrlFinish
  repeat' split
  all_goals dsimp only
  all_goals repeat' split
  all_goals rfl

theorem withUrlFinish_kind_cdda (w : World) (device : String) (wantUrl : Bool)
    (c : CdCache) (slot : ErrSlot) (ev : List Event) :
    (withUrlFinish w device wantUrl .cdda c slot ev).kind = .cdda := by
  unfold withUrlFinish
  repeat' split
  all_goals dsimp only
  all_goals repeat' split
  all_goals first | rfl | simp_all

/-- C2 core run: audio-CD device classifies CDDA with no mount. -/
theorem cddaRunCore (w : World) (fuel : Nat) (dev l d : String) (v : Volume)
    (wu : Bool) (slot : ErrSlot)
    (hl : localOf w dev = some l) (hdir : w.isDir l = false) (hreg : w.isRegular l = false)
    (hres : resolveSymlinkFuel w l fuel = some (.ok d))
    (hvol : cdCacheGetDevFromVolumes w fuel d w.volumes = some (some (v, v.mount)))
    (hm : v.mount.isSome = true) (hmed : v.hasMedia = true)
    (hct : ctHas v.contentTypes cddaTag = true) :
    ∃ r, totemCdDetectTypeWithUrl w fuel dev wu slot = .ok r ∧
      r.kind = .cdda ∧ r.err = slot ∧
      r.events = [Event.bindReq dev, Event.checkCdda] ∧
      List.filter isMountEvent r.events = [] := by
  have hbind : cdCacheNew w fuel dev slot =
      .ok (some { device := some d, mountpoint := v.mount, volume := some v,
                  content_types := if v.mount.isSome then v.contentTypes else none,
                  self_mounted := false, is_media := true },
           slot, [Event.bindReq dev]) := by
    unfold cdCacheNew
    rw [hl]
    simp only [hdir, hreg, Bool.false_eq_true, if_false, hres, hvol]
  have hcdda : cdCacheDiscIsCdda
      { device := some d, mountpoint := v.mount, volume := some v,
        content_types := if v.mount.isSome then v.contentTypes else none,
        self_mounted := false, is_media := true } slot =
      (.cdda,
       { device := some d, mountpoint := v.mount, volume := some v,
         content_types := if v.mount.isSome then v.contentTypes else none,
         self_mounted := false, is_media := true, has_medium := true },
       slot, [Event.checkCdda]) := by
    unfold cdCacheDiscIsCdda cdCacheOpenDevice cdCacheHasMedium
    simp only [hm, if_true, hct, hmed]
    simp [hm, hct]
  have hrun : totemCdDetectTypeWithUrl w fuel dev wu slot =
      .ok (withUrlFinish w dev wu .cdda
        { device := some d, mountpoint := v.mount, volume := some v,
          content_types := if v.mount.isSome then v.contentTypes else none,
          self_mounted := false, is_media := true, has_medium := true }
        slot [Event.bindReq dev, Event.checkCdda]) := by
    unfold totemCdDetectTypeWithUrl
    rw [hbind]
    dsimp only
    rw [hcdda]
    rfl
  refine ⟨_, hrun, withUrlFinish_kind_cdda .., withUrlFinish_err .., ?_, ?_⟩
  · rw [withUrlFinish_events]
    rfl
  · rw [withUrlFinish_events]
    rfl

theorem vcdVariants (c : CdCache) (slot : ErrSlot)
    (hm : c.is_media = false) (hmp : c.mountpoint.isSome = true)
    (hct : ctHas c.content_types vcdTag = true ∨ ctHas c.content_types svcdTag = true) :
    (cdCacheDiscIsVcd c slot).1 = .vcd := by
  have hmp2 : c.mountpoint.isNone = false := by
    cases hcm : c.mountpoint
    · rw [hcm] at hmp; cases hmp
    · rfl
  rcases hct with h | h
  · simp [cdCacheDiscIsVcd, cdCacheOpenDevice, cdCacheOpenMountpoint, hm, hmp2, h]
  · by_cases h2 : ctHas c.content_types vcdTag = true
    · simp [cdCacheDiscIsVcd, cdCacheOpenDevice, cdCacheOpenMountpoint, hm, hmp2, h2]
    · simp [cdCacheDiscIsVcd, cdCacheOpenDevice, cdCacheOpenMountpoint, hm, hmp2, h, h2]

/-- Successful ISO bind: the cache produced by `cd_cache_new` for a
regular file whose archive self-mount succeeds. -/
theorem isoBind (w : World) (fuel : Nat) (dev l : String) (me : Option String) (slot : ErrSlot)
    (hl : localOf w dev = some l) (hdir : w.isDir l = false) (hreg : w.isRegular l = true)
    (hiso : w.isoLookup l = .notMounted true me) :
    cdCacheNew w fuel dev slot =
      .ok (some { is_iso := true, is_media := false, device := some l, iso_file := some l,
                  mountpoint := w.isoPath l, mounted := true },
           slot, [Event.bindReq dev, Event.archMountReq]) := by
  unfold cdCacheNew
  rw [hl]
  simp only [hdir, Bool.false_eq_true, if_false, hreg, if_true, hiso]

theorem isoRunReleases (w : World) (fuel : Nat) (dev l : String) (me : Option String)
    (wu : Bool) (slot : ErrSlot)
    (hl : localOf w dev = some l) (hdir : w.isDir l = false) (hreg : w.isRegular l = true)
    (hiso : w.isoLookup l = .notMounted true me) :
    ∃ r, totemCdDetectTypeWithUrl w fuel dev wu slot = .ok r ∧
      Event.archMountReq ∈ r.events ∧ Event.unmountReq ∈ r.events := by
  have hbind := isoBind w fuel dev l me slot hl hdir hreg hiso
  have hfree : cdCacheFree w
      { is_iso := true, is_media := false, device := some l, iso_file := some l,
        mountpoint := w.isoPath l, mounted := true } = [Event.unmountReq] := by
    simp [cdCacheFree, isoMountedNow, hiso]
  have hcdda : cdCacheDiscIsCdda
      { is_iso := true, is_media := false, device := some l, iso_file := some l,
        mountpoint := w.isoPath l, mounted := true } slot =
      (.data,
       { is_iso := true, is_media := false, device := some l, iso_file := some l,
         mountpoint := w.isoPath l, mounted := true },
       slot, [Event.checkCdda]) := rfl
  have hrun : totemCdDetectTypeWithUrl w fuel dev wu slot =
      .ok (withUrlFinish w dev wu
        (classifyVcdDvd
          { is_iso := true, is_media := false, device := some l, iso_file := some l,
            mountpoint := w.isoPath l, mounted := true } slot).1
        (classifyVcdDvd
          { is_iso := true, is_media := false, device := some l, iso_file := some l,
            mountpoint := w.isoPath l, mounted := true } slot).2.1
        (classifyVcdDvd
          { is_iso := true, is_media := false, device := some l, iso_file := some l,
            mountpoint := w.isoPath l, mounted := true } slot).2.2.1
        ([Event.bindReq dev, Event.archMountReq] ++ [Event.checkCdda] ++
          (classifyVcdDvd
            { is_iso := true, is_media := false, device := some l, iso_file := some l,
              mountpoint := w.isoPath l, mounted := true } slot).2.2.2)) := by
    unfold totemCdDetectTypeWithUrl
    rw [hbind]
    dsimp only
    rw [hcdda]
    rfl
  refine ⟨_, hrun, ?_, ?_⟩
  · rw [withUrlFinish_events]
    simp
  · rw [withUrlFinish_events]
    have hc2 : (classifyVcdDvd
        { is_iso := true, is_media := false, device := some l, iso_file := some l,
          mountpoint := w.isoPath l, mounted := true } slot).2.1 =
        { is_iso := true, is_media := false, device := some l, iso_file := some l,
          mountpoint := w.isoPath l, mounted := true } := by
      unfold classifyVcdDvd cdCacheDiscIsVcd cdCacheDiscIsDvd cdCacheOpenDevice cdCacheOpenMountpoint
      cases hip : w.isoPath l <;> simp [hip, ctHas]
    rw [hc2, hfree]
    simp

theorem gSetError_some (e : Option String) (m : String) :
    ∃ e2, gSetError (some e) m = some e2 := ⟨_, rfl⟩

theorem cdCacheNew_slot_some (w : World) (fuel : Nat) (dev : String) (e : Option String)
    (oc : Option CdCache) (s : ErrSlot) (ev : List Event)
    (h : cdCacheNew w fuel dev (some e) = .ok (oc, s, ev)) : ∃ e2, s = some e2 := by
  unfold cdCacheNew at h
  repeat' split at h
  all_goals first
  | (simp only [Except.ok.injEq, Prod.mk.injEq] at h
     obtain ⟨rfl, rfl, rfl⟩ := h
     first
     | exact ⟨e, rfl⟩
     | exact ⟨_, rfl⟩)
  | cases h

theorem openDevice_slot_some (c : CdCache) (e : Option String) :
    ∃ e2, (cdCacheOpenDevice c (some e)).2.2 = some e2 := by
  rcases openDevice_cases c (some e) with h | h | h <;> rw [h]
  · exact ⟨e, rfl⟩
  · exact ⟨_, rfl⟩
  · exact ⟨e, rfl⟩

theorem cdda_slot_some (c : CdCache) (e : Option String) :
    ∃ e2, (cdCacheDiscIsCdda c (some e)).2.2.1 = some e2 := by
  unfold cdCacheDiscIsCdda
  dsimp only
  have hs := openDevice_slot_some c e
  repeat' split
  all_goals first | exact ⟨e, rfl⟩ | exact hs

/-- With a supplied error slot, the `*error` read after the CDDA stage
never dereferences NULL: the run never halts with `nullDeref`. -/
theorem withUrl_no_nullDeref (w : World) (fuel : Nat) (dev : String) (wu : Bool)
    (e : Option String) :
    totemCdDetectTypeWithUrl w fuel dev wu (some e) ≠ .error .nullDeref := by
  unfold totemCdDetectTypeWithUrl
  cases hnew : cdCacheNew w fuel dev (some e) with
  | error h2 =>
    have : h2 = .diverge := by
      unfold cdCacheNew at hnew
      repeat' split at hnew
      all_goals first
      | (injection hnew with h3; exact h3.symm)
      | cases hnew
    subst this
    intro hc
    cases hc
  | ok trip =>
    obtain ⟨oc, s, ev⟩ := trip
    cases oc with
    | none => intro hc; cases hc
    | some c =>
      dsimp only
      obtain ⟨e3, hs3⟩ := cdCacheNew_slot_some w fuel dev e _ _ _ hnew
      subst hs3
      rcases hcd : cdCacheDiscIsCdda c (some e3) with ⟨t, c1, s1, ev2⟩
      have hs1 : ∃ e4, s1 = some e4 := by
        have h5 := cdda_slot_some c e3
        rw [hcd] at h5
        exact h5
      obtain ⟨e4, rfl⟩ := hs1
      dsimp only
      repeat' split
      all_goals intro hc
      all_goals cases hc

theorem bind_inv (w : World) (fuel : Nat) (dev : String) (slot : ErrSlot)
    (c : CdCache) (s : ErrSlot) (ev : List Event)
    (h : cdCacheNew w fuel dev slot = .ok (some c, s, ev)) : selfMountedInv c := by
  unfold cdCacheNew at h
  repeat' split at h
  all_goals first
  | (simp only [Except.ok.injEq, Prod.mk.injEq, Option.some.injEq] at h
     obtain ⟨rfl, rfl, rfl⟩ := h
     intro hc
     cases hc)
  | cases h

theorem openDevice_inv (c : CdCache) (slot : ErrSlot) (hinv : selfMountedInv c) :
    selfMountedInv (cdCacheOpenDevice c slot).2.1 := by
  rcases openDevice_cases c slot with h | h | h <;> rw [h] <;> exact hinv

theorem openMountpoint_inv (c : CdCache) (slot : ErrSlot) (hinv : selfMountedInv c)
    (hok : (cdCacheOpenMountpoint c slot).1 = true) :
    selfMountedInv (cdCacheOpenMountpoint c slot).2.1 := by
  unfold cdCacheOpenMountpoint at hok ⊢
  by_cases h1 : (c.mounted || decide (c.is_media = false)) = true
  · rw [if_pos h1] at hok ⊢
    exact hinv
  · rw [if_neg h1] at hok ⊢
    cases hv : c.volume with
    | none =>
      rw [hv] at hok
      exact hinv
    | some v =>
      rw [hv] at hok
      dsimp only at hok ⊢
      by_cases h2 : v.mount.isNone = true
      · rw [if_pos h2] at hok ⊢
        by_cases h3 : v.mountOk = true
        · rw [if_pos h3] at hok ⊢
          dsimp only
          split
          · intro hc; rfl
          · intro hc; rfl
        · rw [if_neg h3] at hok ⊢
          cases hok
      · rw [if_neg h2] at hok ⊢
        dsimp only
        split
        all_goals intro hc
        all_goals dsimp only at hc
        all_goals exact absurd hc h2

theorem noVolumeBind (w : World) (fuel : Nat) (dev l d : String) (slot : ErrSlot)
    (hl : localOf w dev = some l) (hdir : w.isDir l = false) (hreg : w.isRegular l = false)
    (hres : resolveSymlinkFuel w l fuel = some (.ok d))
    (hvol : cdCacheGetDevFromVolumes w fuel d w.volumes = some none) :
    cdCacheNew w fuel dev slot =
      .ok (none, gSetError slot (noMediaMsg d), [Event.bindReq dev]) := by
  unfold cdCacheNew
  rw [hl]
  simp only [hdir, Bool.false_eq_true, if_false, hreg, hres, hvol]

theorem openDevice_fail_err (c : CdCache) (e : Option String)
    (h : (cdCacheOpenDevice c (some e)).1 = false) :
    (cdCacheOpenDevice c (some e)).2.2 = some (some (e.getD noDiscMsg)) := by
  rcases openDevice_cases c (some e) with h2 | h2 | h2 <;> rw [h2] at h ⊢
  · cases h
  · rfl
  · cases h

theorem openMountpoint_fail_err (c : CdCache) (e : Option String)
    (h : (cdCacheOpenMountpoint c (some e)).1 = false) :
    ∃ m, (cdCacheOpenMountpoint c (some e)).2.2.1 = some (some m) := by
  unfold cdCacheOpenMountpoint at h ⊢
  by_cases h1 : (c.mounted || decide (c.is_media = false)) = true
  · rw [if_pos h1] at h
    cases h
  · rw [if_neg h1] at h ⊢
    cases hv : c.volume with
    | none =>
      try rw [hv] at h
      cases h
    | some v =>
      try rw [hv] at h
      try rw [hv]
      dsimp only at h ⊢
      by_cases h2 : v.mount.isNone = true
      · rw [if_pos h2] at h ⊢
        by_cases h3 : v.mountOk = true
        · rw [if_pos h3] at h
          cases h
        · rw [if_neg h3] at h ⊢
          exact ⟨_, rfl⟩
      · rw [if_neg h2] at h
        cases h

theorem isoMountFailBind (w : World) (fuel : Nat) (dev l : String) (me : Option String)
    (e : Option String)
    (hl : localOf w dev = some l) (hdir : w.isDir l = false) (hreg : w.isRegular l = true)
    (hiso : w.isoLookup l = .notMounted false me) :
    cdCacheNew w fuel dev (some e) =
      .ok (none, some (some (e.getD (me.getD (failMountMsg l)))),
           [Event.bindReq dev, Event.archMountReq]) := by
  unfold cdCacheNew
  rw [hl]
  simp only [hdir, Bool.false_eq_true, if_false, hreg, if_true, hiso]
  simp [cdCacheFree, isoMountedNow, hiso, gSetError]

theorem dirBind (w : World) (fuel : Nat) (dev l : String) (slot : ErrSlot)
    (hl : localOf w dev = some l) (hdir : w.isDir l = true) :
    cdCacheNew w fuel dev slot =
      .ok (some { mountpoint := some l, is_media := false,
                  content_types := w.dirContentTypes l },
           slot, [Event.bindReq dev]) := by
  unfold cdCacheNew
  rw [hl]
  simp only [hdir, if_true]

theorem dirClassify (w : World) (l : String) (slot : ErrSlot)
    (hv : ctHas (w.dirContentTypes l) vcdTag = false)
    (hs : ctHas (w.dirContentTypes l) svcdTag = false)
    (hd : ctHas (w.dirContentTypes l) dvdTag = false) :
    classifyVcdDvd
      { mountpoint := some l, is_media := false,
        content_types := w.dirContentTypes l } slot =
      (.data,
       { mountpoint := some l, is_media := false,
         content_types := w.dirContentTypes l },
       slot, [Event.checkVcd, Event.checkDvd]) := by
  unfold classifyVcdDvd cdCacheDiscIsVcd cdCacheDiscIsDvd cdCacheOpenDevice cdCacheOpenMountpoint
  simp [hv, hs, hd]

theorem resolve_terminates (w : World) (f : String) (n : Nat)
    (h : resolveExit w (followN w f n)) : resolveSymlinkFuel w f (n+1) ≠ none := by
  induction n generalizing f with
  | zero =>
    unfold followN at h
    unfold resolveSymlinkFuel
    rcases h with h | h
    · simp [h]
    · by_cases hs : w.isSymlink f = true
      · simp [hs, h]
      · simp [hs]
  | succ n ih =>
    by_cases hs : w.isSymlink f = true
    · cases hr : w.readLink f with
      | none =>
        unfold resolveSymlinkFuel
        simp [hs, hr]
      | some link =>
        have hnext : resolveNext w f = w.buildFilename (w.dirname f) link := by
          simp [resolveNext, hs, hr]
        have h2 : resolveExit w (followN w (resolveNext w f) n) := h
        have h3 := ih (resolveNext w f) h2
        unfold resolveSymlinkFuel
        simp only [hs, if_true, hr]
        rw [← hnext]
        exact h3
    · unfold resolveSymlinkFuel
      simp [hs]

theorem cycle_diverges : resolveDiverges wCycle "/a" := by
  intro n
  induction n with
  | zero => rfl
  | succ n ih =>
    have hstep : resolveSymlinkFuel wCycle "/a" (n+1) = resolveSymlinkFuel wCycle "/a" n := rfl
    rw [hstep, ih]

theorem dirRunNoParent (w : World) (fuel : Nat) (dir l : String) (wu : Bool) (slot : ErrSlot)
    (hl : localOf w dir = some l) (hdir : w.isDir l = true)
    (hv : ctHas (w.dirContentTypes l) vcdTag = false)
    (hs : ctHas (w.dirContentTypes l) svcdTag = false)
    (hd : ctHas (w.dirContentTypes l) dvdTag = false)
    (hp : w.parentPath dir = none) :
    totemCdDetectTypeFromDir w fuel dir wu slot =
      .ok (.data, none, slot, [Event.bindReq dir, Event.checkVcd, Event.checkDvd]) := by
  unfold totemCdDetectTypeFromDir
  rw [dirBind w fuel dir l slot hl hdir]
  dsimp only
  rw [dirClassify w l slot hv hs hd]
  simp [hp, cdCacheFree]

theorem dirRunParent (w : World) (fuel : Nat) (dir l p lp : String) (wu : Bool) (slot : ErrSlot)
    (hl : localOf w dir = some l) (hdir : w.isDir l = true)
    (hv : ctHas (w.dirContentTypes l) vcdTag = false)
    (hs : ctHas (w.dirContentTypes l) svcdTag = false)
    (hd : ctHas (w.dirContentTypes l) dvdTag = false)
    (hp : w.parentPath dir = some p)
    (hlp : localOf w p = some lp) (hdp : w.isDir lp = true)
    (hv2 : ctHas (w.dirContentTypes lp) vcdTag = false)
    (hs2 : ctHas (w.dirContentTypes lp) svcdTag = false)
    (hd2 : ctHas (w.dirContentTypes lp) dvdTag = false) :
    totemCdDetectTypeFromDir w fuel dir wu slot =
      .ok (.data, none, slot,
        [Event.bindReq dir, Event.checkVcd, Event.checkDvd,
         Event.bindReq p, Event.checkVcd, Event.checkDvd]) := by
  unfold totemCdDetectTypeFromDir
  rw [dirBind w fuel dir l slot hl hdir]
  dsimp only
  rw [dirClassify w l slot hv hs hd]
  simp only [hp]
  rw [dirBind w fuel p lp slot hlp hdp]
  dsimp only
  rw [dirClassify w lp slot hv2 hs2 hd2]
  simp [cdCacheFree]

theorem isoBindMounted (w : World) (fuel : Nat) (dev l : String) (slot : ErrSlot)
    (hl : localOf w dev = some l) (hdir : w.isDir l = false) (hreg : w.isRegular l = true)
    (hiso : w.isoLookup l = .mounted) :
    cdCacheNew w fuel dev slot =
      .ok (some { is_iso := true, is_media := false, device := some l, iso_file := some l,
                  mountpoint := w.isoPath l, mounted := true },
           slot, [Event.bindReq dev]) := by
  unfold cdCacheNew
  rw [hl]
  simp only [hdir, Bool.false_eq_true, if_false, hreg, if_true, hiso]

theorem isoDataRun (w : World) (fuel : Nat) (dev l mp : String) (slot : ErrSlot)
    (hl : localOf w dev = some l) (hdir : w.isDir l = false) (hreg : w.isRegular l = true)
    (hmount : w.isoLookup l = .mounted ∨ ∃ me, w.isoLookup l = .notMounted true me)
    (hip : w.isoPath l = some mp) :
    ∃ ev2, totemCdDetectTypeWithUrl w fuel dev true slot =
      .ok ⟨.error, none, slot, ev2⟩ := by
  rcases hmount with hiso | ⟨me, hiso⟩
  · refine ⟨[Event.bindReq dev, Event.checkCdda, Event.checkVcd, Event.checkDvd] ++
      cdCacheFree w { is_iso := true, is_media := false, device := some l,
                      iso_file := some l, mountpoint := some mp, mounted := true }, ?_⟩
    unfold totemCdDetectTypeWithUrl
    rw [isoBindMounted w fuel dev l slot hl hdir hreg hiso]
    dsimp only
    rw [hip]
    rfl
  · refine ⟨[Event.bindReq dev, Event.archMountReq, Event.checkCdda, Event.checkVcd,
      Event.checkDvd] ++
      cdCacheFree w { is_iso := true, is_media := false, device := some l,
                      iso_file := some l, mountpoint := some mp, mounted := true }, ?_⟩
    unfold totemCdDetectTypeWithUrl
    rw [isoBind w fuel dev l me slot hl hdir hreg hiso]
    dsimp only
    rw [hip]
    rfl

/-- C1 counterexample: a top-level classification of `/dev/sr0` whose
Device volume is self-mounted by the operation (`volMountReq` issued,
mount succeeds) returns without ever issuing an unmount request —
`cd_cache_free` unmounts only ISO archive mounts, so the claim is false
for the Device-volume case. -/
theorem claim1_counterexample :
    totemCdDetectTypeWithUrl wSelfMount 2 "/dev/sr0" false (some none) =
      .ok ⟨.data, none, some none,
        [Event.bindReq "/dev/sr0", Event.checkCdda, Event.checkVcd,
         Event.volMountReq, Event.checkDvd]⟩ ∧
    Event.volMountReq ∈
      [Event.bindReq "/dev/sr0", Event.checkCdda, Event.checkVcd,
       Event.volMountReq, Event.checkDvd] ∧
    Event.unmountReq ∉
      [Event.bindReq "/dev/sr0", Event.checkCdda, Event.checkVcd,
       Event.volMountReq, Event.checkDvd] := by
  refine ⟨by decide, by decide, by decide⟩

/-- C1 (amended): a resource self-mounted during an operation is
unmounted by the time the operation returns when the self-mount was an
ISO archive mount (the archive mount request is followed by an unmount
request before `totem_cd_detect_type_with_url` returns); a self-mounted
Device volume is never unmounted, because `cd_cache_free` issues an
unmount request only for caches holding an ISO archive file. -/
theorem claim1_thm (w : World) (fuel : Nat) (dev l : String) (me : Option String)
    (wu : Bool) (slot : ErrSlot)
    (hl : localOf w dev = some l) (hdir : w.isDir l = false) (hreg : w.isRegular l = true)
    (hiso : w.isoLookup l = .notMounted true me) :
    (∃ r, totemCdDetectTypeWithUrl w fuel dev wu slot = .ok r ∧
      Event.archMountReq ∈ r.events ∧ Event.unmountReq ∈ r.events) ∧
    (∀ w2 c, c.iso_file = none → cdCacheFree w2 c = []) := by
  refine ⟨isoRunReleases w fuel dev l me wu slot hl hdir hreg hiso, ?_⟩
  intro w2 c hc
  unfold cdCacheFree
  simp [hc]

/-- C1 witness: the concrete ISO world exercises the amended claim. -/
theorem claim1_witness :
    (∃ r, totemCdDetectTypeWithUrl wIso 2 "/home/u/img.iso" true (some none) = .ok r ∧
      Event.archMountReq ∈ r.events ∧ Event.unmountReq ∈ r.events) ∧
    (∀ w2 c, c.iso_file = none → cdCacheFree w2 c = []) :=
  claim1_thm wIso 2 "/home/u/img.iso" "/home/u/img.iso" none true (some none)
    (by decide) (by decide) (by decide) (by decide)

/-- C2: a device path whose bound volume is mounted, whose drive has a
medium, and whose content types include the audio-CD tag classifies as
CDDA with no mount request, and the trace is exactly the bind followed
by the CDDA check; in every run of `totem_cd_detect_type_with_url` the
classification checks occur in the order CDDA, VCD, DVD (each a prefix
of that sequence); and both VCD content-type variants classify as the
same VCD kind. -/
theorem claim2_thm (w : World) (fuel : Nat) (dev l d : String) (v : Volume)
    (wu : Bool) (slot : ErrSlot)
    (hl : localOf w dev = some l) (hdir : w.isDir l = false) (hreg : w.isRegular l = false)
    (hres : resolveSymlinkFuel w l fuel = some (.ok d))
    (hvol : cdCacheGetDevFromVolumes w fuel d w.volumes = some (some (v, v.mount)))
    (hm : v.mount.isSome = true) (hmed : v.hasMedia = true)
    (hct : ctHas v.contentTypes cddaTag = true) :
    (∃ r, totemCdDetectTypeWithUrl w fuel dev wu slot = .ok r ∧
      r.kind = .cdda ∧ r.err = slot ∧
      r.events = [Event.bindReq dev, Event.checkCdda] ∧
      List.filter isMountEvent r.events = []) ∧
    (∀ w2 fuel2 dev2 wu2 slot2 r2,
      totemCdDetectTypeWithUrl w2 fuel2 dev2 wu2 slot2 = .ok r2 →
      ∃ n, checkEvents r2.events =
        [Event.checkCdda, Event.checkVcd, Event.checkDvd].take n) ∧
    (∀ c slot2, c.is_media = false → c.mountpoint.isSome = true →
      (ctHas c.content_types vcdTag = true ∨ ctHas c.content_types svcdTag = true) →
      (cdCacheDiscIsVcd c slot2).1 = .vcd) :=
  ⟨cddaRunCore w fuel dev l d v wu slot hl hdir hreg hres hvol hm hmed hct,
   fun w2 fuel2 dev2 wu2 slot2 r2 h => withUrl_checks w2 fuel2 dev2 wu2 slot2 r2 h,
   fun c slot2 h1 h2 h3 => vcdVariants c slot2 h1 h2 h3⟩

/-- C2 witness: the mounted audio-CD world `wCdda` for `/dev/sr0`. -/
theorem claim2_witness :
    (∃ r, totemCdDetectTypeWithUrl wCdda 2 "/dev/sr0" true none = .ok r ∧
      r.kind = .cdda ∧ r.err = none ∧
      r.events = [Event.bindReq "/dev/sr0", Event.checkCdda] ∧
      List.filter isMountEvent r.events = []) ∧
    (∀ w2 fuel2 dev2 wu2 slot2 r2,
      totemCdDetectTypeWithUrl w2 fuel2 dev2 wu2 slot2 = .ok r2 →
      ∃ n, checkEvents r2.events =
        [Event.checkCdda, Event.checkVcd, Event.checkDvd].take n) ∧
    (∀ c slot2, c.is_media = false → c.mountpoint.isSome = true →
      (ctHas c.content_types vcdTag = true ∨ ctHas c.content_types svcdTag = true) →
      (cdCacheDiscIsVcd c slot2).1 = .vcd) :=
  claim2_thm wCdda 2 "/dev/sr0" "/dev/sr0" "/dev/sr0" volCdda true none
    (by decide) (by decide) (by decide) (by decide) (by decide) (by decide)
    (by decide) (by decide)

/-- C3: a directory path with no VCD/DVD content-type tags classifies as
Data; if it has no resolvable parent the result is Data after a single
bind, and otherwise the classification is retried exactly once against
the parent directory (the trace shows exactly two binds: the directory
and its parent, with no further recursion), yielding Data when the
parent also lacks the tags. -/
theorem claim3_thm (w : World) (fuel : Nat) (dir l : String) (wu : Bool) (slot : ErrSlot)
    (hl : localOf w dir = some l) (hdir : w.isDir l = true)
    (hv : ctHas (w.dirContentTypes l) vcdTag = false)
    (hs : ctHas (w.dirContentTypes l) svcdTag = false)
    (hd : ctHas (w.dirContentTypes l) dvdTag = false) :
    (w.parentPath dir = none →
      totemCdDetectTypeFromDir w fuel dir wu slot =
        .ok (.data, none, slot, [Event.bindReq dir, Event.checkVcd, Event.checkDvd])) ∧
    (∀ p lp, w.parentPath dir = some p → localOf w p = some lp → w.isDir lp = true →
      ctHas (w.dirContentTypes lp) vcdTag = false →
      ctHas (w.dirContentTypes lp) svcdTag = false →
      ctHas (w.dirContentTypes lp) dvdTag = false →
      totemCdDetectTypeFromDir w fuel dir wu slot =
        .ok (.data, none, slot,
          [Event.bindReq dir, Event.checkVcd, Event.checkDvd,
           Event.bindReq p, Event.checkVcd, Event.checkDvd])) :=
  ⟨fun hp => dirRunNoParent w fuel dir l wu slot hl hdir hv hs hd hp,
   fun p lp hp hlp hdp hv2 hs2 hd2 =>
     dirRunParent w fuel dir l p lp wu slot hl hdir hv hs hd hp hlp hdp hv2 hs2 hd2⟩

/-- C3 witness: `/mnt/disc` with parent `/mnt`, both plain directories. -/
theorem claim3_witness :
    totemCdDetectTypeFromDir wDirPlain 2 "/mnt/disc" true (some none) =
      .ok (.data, none, some none,
        [Event.bindReq "/mnt/disc", Event.checkVcd, Event.checkDvd,
         Event.bindReq "/mnt", Event.checkVcd, Event.checkDvd]) :=
  (claim3_thm wDirPlain 2 "/mnt/disc" "/mnt/disc" true (some none)
    (by decide) (by decide) (by decide) (by decide) (by decide)).2
    "/mnt" "/mnt" (by decide) (by decide) (by decide) (by decide) (by decide) (by decide)

/-- C4: a device path for which no volume's resolved identifier matches
the resolved device identity makes both `totem_cd_detect_type_with_url`
and `totem_cd_detect_type` return `MEDIA_TYPE_ERROR` with the
no-media-in-drive message in the supplied error slot, while
`totem_cd_has_medium` for the same path returns true (fail-open). -/
theorem claim4_thm (w : World) (fuel : Nat) (dev l d : String)
    (hl : localOf w dev = some l) (hdir : w.isDir l = false) (hreg : w.isRegular l = false)
    (hres : resolveSymlinkFuel w l fuel = some (.ok d))
    (hvol : cdCacheGetDevFromVolumes w fuel d w.volumes = some none) :
    (∀ wu, totemCdDetectTypeWithUrl w fuel dev wu (some none) =
      .ok ⟨.error, none, some (some (noMediaMsg d)), [Event.bindReq dev]⟩) ∧
    totemCdDetectType w fuel dev (some none) =
      .ok ⟨.error, none, some (some (noMediaMsg d)), [Event.bindReq dev]⟩ ∧
    totemCdHasMedium w fuel dev = .ok true := by
  have h1 : ∀ wu, totemCdDetectTypeWithUrl w fuel dev wu (some none) =
      .ok ⟨.error, none, some (some (noMediaMsg d)), [Event.bindReq dev]⟩ := by
    intro wu
    unfold totemCdDetectTypeWithUrl
    rw [noVolumeBind w fuel dev l d (some none) hl hdir hreg hres hvol]
    rfl
  refine ⟨h1, h1 false, ?_⟩
  unfold totemCdHasMedium
  rw [noVolumeBind w fuel dev l d none hl hdir hreg hres hvol]

/-- C4 witness: the empty volume registry of `w0` matches no device. -/
theorem claim4_witness :
    (∀ wu, totemCdDetectTypeWithUrl w0 1 "/dev/sr0" wu (some none) =
      .ok ⟨.error, none, some (some (noMediaMsg "/dev/sr0")), [Event.bindReq "/dev/sr0"]⟩) ∧
    totemCdDetectType w0 1 "/dev/sr0" (some none) =
      .ok ⟨.error, none, some (some (noMediaMsg "/dev/sr0")), [Event.bindReq "/dev/sr0"]⟩ ∧
    totemCdHasMedium w0 1 "/dev/sr0" = .ok true :=
  claim4_thm w0 1 "/dev/sr0" "/dev/sr0" "/dev/sr0"
    (by decide) (by decide) (by decide) (by decide) (by decide)

/-- C5: an input that binds to an ISO-archive resource (mounted, with a
reachable archive path, so classification yields Data) makes
`totem_cd_detect_type_with_url` with a supplied locator out-parameter
return `MEDIA_TYPE_ERROR` with the locator left NULL. -/
theorem claim5_thm (w : World) (fuel : Nat) (dev l mp : String) (slot : ErrSlot)
    (hl : localOf w dev = some l) (hdir : w.isDir l = false) (hreg : w.isRegular l = true)
    (hmount : w.isoLookup l = .mounted ∨ ∃ me, w.isoLookup l = .notMounted true me)
    (hip : w.isoPath l = some mp) :
    ∃ ev2, totemCdDetectTypeWithUrl w fuel dev true slot =
      .ok ⟨.error, none, slot, ev2⟩ :=
  isoDataRun w fuel dev l mp slot hl hdir hreg hmount hip

/-- C5 witness: the concrete ISO world `wIso`. -/
theorem claim5_witness :
    ∃ ev2, totemCdDetectTypeWithUrl wIso 2 "/home/u/img.iso" true (some none) =
      .ok ⟨.error, none, some none, ev2⟩ :=
  claim5_thm wIso 2 "/home/u/img.iso" "/home/u/img.iso" "/run/archive/root" (some none)
    (by decide) (by decide) (by decide) (Or.inr ⟨none, by decide⟩) (by decide)

/-- C6 counterexample: binding `/dev/sr0` against an unmounted volume
whose mount attempt fails produces `cacheMountFails`, and
`cd_cache_open_mountpoint` on it returns failure with
`self_mounted = true` while `mounted = false` — the flag is assigned
before the mount attempt, so the claimed invariant is violated on the
mount-failure path. -/
theorem claim6_counterexample :
    cdCacheNew wMountFails 2 "/dev/sr0" (some none) =
      .ok (some cacheMountFails, some none, [Event.bindReq "/dev/sr0"]) ∧
    (cdCacheOpenMountpoint cacheMountFails (some none)).1 = false ∧
    (cdCacheOpenMountpoint cacheMountFails (some none)).2.1.self_mounted = true ∧
    (cdCacheOpenMountpoint cacheMountFails (some none)).2.1.mounted = false := by
  refine ⟨by decide, by decide, by decide, by decide⟩

/-- C6 (amended): `self_mounted` implies `mounted` at construction and
is preserved by `cd_cache_open_device` and by every successful return of
`cd_cache_open_mountpoint`; only the failed-mount error return leaves
`self_mounted` true with `mounted` false. -/
theorem claim6_thm :
    (∀ (w : World) (fuel : Nat) (dev : String) (slot : ErrSlot) c s ev,
      cdCacheNew w fuel dev slot = .ok (some c, s, ev) → selfMountedInv c) ∧
    (∀ c slot, selfMountedInv c → selfMountedInv (cdCacheOpenDevice c slot).2.1) ∧
    (∀ c slot, selfMountedInv c → (cdCacheOpenMountpoint c slot).1 = true →
      selfMountedInv (cdCacheOpenMountpoint c slot).2.1) :=
  ⟨fun w fuel dev slot c s ev h => bind_inv w fuel dev slot c s ev h,
   fun c slot h => openDevice_inv c slot h,
   fun c slot h hok => openMountpoint_inv c slot h hok⟩

/-- C6 witness: the invariant instantiated on a concrete run. -/
theorem claim6_witness :
    selfMountedInv (cdCacheOpenMountpoint {} (some none)).2.1 :=
  claim6_thm.2.2 {} (some none) (fun h => by cases h) (by decide)

/-- C7: `totem_cd_mrl_from_type` applied to scheme dvd and a `file://`
URI location converts the URI to a local path before prefixing the
scheme, giving `dvd:///media/movie`; a CDDA classification of
`/dev/sr0` synthesizes the locator `cdda://sr0` (leading `/dev/`
stripped), while the device path `/tmp/loop0` without that lead-in is
used raw, giving `cdda:///tmp/loop0`. -/
theorem claim7_thm (w : World)
    (h : w.filenameFromUri "file:///media/movie" = some "/media/movie") :
    totemCdMrlFromType w "dvd" "file:///media/movie" = "dvd:///media/movie" ∧
    totemCdDetectTypeWithUrl wCdda 2 "/dev/sr0" true none =
      .ok ⟨.cdda, some "cdda://sr0", none,
        [Event.bindReq "/dev/sr0", Event.checkCdda]⟩ ∧
    totemCdDetectTypeWithUrl wCddaLoop 2 "/tmp/loop0" true none =
      .ok ⟨.cdda, some "cdda:///tmp/loop0", none,
        [Event.bindReq "/tmp/loop0", Event.checkCdda]⟩ := by
  refine ⟨?_, by decide, by decide⟩
  unfold totemCdMrlFromType
  rw [if_pos (by decide : strHasPre "file://" "file:///media/movie" = true), h]
  rfl

/-- C7 witness: the URI-converting world `wUri`. -/
theorem claim7_witness :
    totemCdMrlFromType wUri "dvd" "file:///media/movie" = "dvd:///media/movie" ∧
    totemCdDetectTypeWithUrl wCdda 2 "/dev/sr0" true none =
      .ok ⟨.cdda, some "cdda://sr0", none,
        [Event.bindReq "/dev/sr0", Event.checkCdda]⟩ ∧
    totemCdDetectTypeWithUrl wCddaLoop 2 "/tmp/loop0" true none =
      .ok ⟨.cdda, some "cdda:///tmp/loop0", none,
        [Event.bindReq "/tmp/loop0", Event.checkCdda]⟩ :=
  claim7_thm wUri (by decide)

/-- C8 counterexample: on the cyclic symlink `/a -> a` the
`totem_resolve_symlink` loop never returns — for every fuel bound the
loop is still running, and no `LinkCycleError` exists in the code — so
resolution does not terminate on every input. -/
theorem claim8_counterexample : resolveDiverges wCycle "/a" :=
  cycle_diverges

/-- C8 (amended): `totem_resolve_symlink` does not bound symlink
following; it terminates exactly on inputs whose symlink chain reaches,
after finitely many hops, a file that is not a symlink or whose link
cannot be read (in which case `n + 1` iterations of fuel suffice), and
it loops forever on a cyclic chain instead of failing with a
`LinkCycleError`. -/
theorem claim8_thm (w : World) (f : String) (n : Nat)
    (h : resolveExit w (followN w f n)) :
    resolveSymlinkFuel w f (n + 1) ≠ none :=
  resolve_terminates w f n h

/-- C8 witness: a path that is not a symlink resolves with one unit of
fuel. -/
theorem claim8_witness :
    resolveExit w0 (followN w0 "/x" 0) ∧ resolveSymlinkFuel w0 "/x" 1 ≠ none :=
  ⟨Or.inl rfl, claim8_thm w0 "/x" 0 (Or.inl rfl)⟩

/-- C9 counterexample: the argument `x` has no local path in `w0`, so
`cd_cache_new` fails without setting the error ("No error, just no
cache") and `totem_cd_detect_type_with_url` returns `MEDIA_TYPE_ERROR`
with the caller-supplied error slot still empty — a failure return from
resource binding that leaves the error out-parameter unset. -/
theorem claim9_counterexample :
    totemCdDetectTypeWithUrl w0 1 "x" false (some none) =
      .ok ⟨.error, none, some none, [Event.bindReq "x"]⟩ := by
  decide

/-- C9 (amended): the medium-check, volume-mount, no-matching-volume and
ISO-mount failures all store a human-readable message in a supplied
error slot; but the non-local-path bind failure (and the ISO
other-error and ISO-Data paths, see the counterexample and C5) return
`MEDIA_TYPE_ERROR` with the error out-parameter unset. -/
theorem claim9_thm :
    (∀ c e, (cdCacheOpenDevice c (some e)).1 = false →
      (cdCacheOpenDevice c (some e)).2.2 = some (some (e.getD noDiscMsg))) ∧
    (∀ c e, (cdCacheOpenMountpoint c (some e)).1 = false →
      ∃ m, (cdCacheOpenMountpoint c (some e)).2.2.1 = some (some m)) ∧
    (∀ (w : World) (fuel : Nat) (dev l d : String) (e : Option String),
      localOf w dev = some l → w.isDir l = false → w.isRegular l = false →
      resolveSymlinkFuel w l fuel = some (.ok d) →
      cdCacheGetDevFromVolumes w fuel d w.volumes = some none →
      cdCacheNew w fuel dev (some e) =
        .ok (none, some (some (e.getD (noMediaMsg d))), [Event.bindReq dev])) ∧
    (∀ (w : World) (fuel : Nat) (dev l : String) (me e : Option String),
      localOf w dev = some l → w.isDir l = false → w.isRegular l = true →
      w.isoLookup l = .notMounted false me →
      cdCacheNew w fuel dev (some e) =
        .ok (none, some (some (e.getD (me.getD (failMountMsg l)))),
             [Event.bindReq dev, Event.archMountReq])) :=
  ⟨fun c e h => openDevice_fail_err c e h,
   fun c e h => openMountpoint_fail_err c e h,
   fun w fuel dev l d e h1 h2 h3 h4 h5 => noVolumeBind w fuel dev l d (some e) h1 h2 h3 h4 h5,
   fun w fuel dev l me e h1 h2 h3 h4 => isoMountFailBind w fuel dev l me e h1 h2 h3 h4⟩

/-- C9 witness: the no-disc failure stores its message in the slot. -/
theorem claim9_witness :
    (cdCacheOpenDevice { is_media := true, volume := some volNoMedium } (some none)).2.2 =
      some (some noDiscMsg) :=
  claim9_thm.1 { is_media := true, volume := some volNoMedium } none (by decide)

/-- C10: with a NULL error out-parameter, a hard failure of the CDDA
stage (drive reports no medium) makes `totem_cd_detect_type_with_url`
dereference the NULL `error` (`*error` is read whenever that stage
returns `MEDIA_TYPE_ERROR`); with a supplied (non-NULL) error slot the
dereference is safe on every path — the run never halts with
`nullDeref`. -/
theorem claim10_thm :
    totemCdDetectTypeWithUrl wNoMedium 2 "/dev/sr0" false none = .error .nullDeref ∧
    (∀ (w : World) (fuel : Nat) (dev : String) (wu : Bool) (e : Option String),
      totemCdDetectTypeWithUrl w fuel dev wu (some e) ≠ .error .nullDeref) :=
  ⟨by decide, fun w fuel dev wu e => withUrl_no_nullDeref w fuel dev wu e⟩

/-- C10 witness: a concrete supplied-slot run does not hit the NULL
dereference. -/
theorem claim10_witness :
    totemCdDetectTypeWithUrl w0 1 "/dev/x" false (some none) ≠ .error .nullDeref :=
  claim10_thm.2 w0 1 "/dev/x" false none
